import Mathlib

/-!
Shallow embedding of the authentication core of the template-nestjs-api
repository: the login use case (domain/auth/use-cases/login.use-case.ts),
the Zod login schema (application/http/auth/dtos/login.dto.ts), the auth
controller (application/http/auth/controllers/auth.controller.ts) and the
response interceptor (ResponseInterceptor).  External collaborators
(the Knex-backed user repository's `findByEmail` and bcrypt's `compare`)
are modelled as explicit parameters or as a lookup over a list of rows.
-/

/-- A persisted user row, as created by the migration described in the
repository README: id, email, password hash, name and two timestamps. -/
structure User where
  id : String
  email : String
  password : String
  name : String
  createdAt : String
  updatedAt : String
deriving Repr, DecidableEq

/-- The runtime value produced by
`const { password: _, ...userWithoutPassword } = user` in
`LoginUseCase.execute`: the user row with the password hash field removed. -/
structure PublicUser where
  id : String
  email : String
  name : String
  createdAt : String
  updatedAt : String
deriving Repr, DecidableEq

/-- Spread-destructuring that drops the `password` key. -/
def User.withoutPassword (u : User) : PublicUser :=
  { id := u.id, email := u.email, name := u.name,
    createdAt := u.createdAt, updatedAt := u.updatedAt }

/-- `LoginInput` from login.use-case.ts: email and plaintext password. -/
structure LoginInput where
  email : String
  password : String
deriving Repr, DecidableEq

/-- `LoginOutput` from login.use-case.ts: the password-stripped user and an
optional token.  The source never sets the token (`token:` is commented
out), so `execute` always returns `none` here. -/
structure LoginOutput where
  user : PublicUser
  token : Option String
deriving Repr, DecidableEq

/-- The only error kind the use case signals: Nest's
`UnauthorizedException` carrying a message string. -/
inductive AuthError where
  | unauthorized (message : String)
deriving Repr, DecidableEq

/-- The Knex repository's `findByEmail`:
`this.db('users').where({ email }).first()` — first row whose email column
equals the argument. -/
def findByEmail (store : List User) (email : String) : Option User :=
  store.find? (fun u => u.email == email)

/-- `LoginUseCase.execute`, translated line by line from
login.use-case.ts.  `repo` stands for the injected
`userRepository.findByEmail` and `compare` for `bcrypt.compare`.
The email is passed to the repository exactly as received; there is no
normalization step in the source.  Both failure branches throw
`UnauthorizedException('Invalid credentials')`. -/
def LoginUseCase.execute (repo : String → Option User)
    (compare : String → String → Bool) (input : LoginInput) :
    Except AuthError LoginOutput :=
  match repo input.email with
  | none => .error (.unauthorized "Invalid credentials")
  | some user =>
    if compare input.password user.password then
      .ok { user := user.withoutPassword, token := none }
    else
      .error (.unauthorized "Invalid credentials")

/-- An observable interaction of the use case with its collaborators:
a repository read, a repository write, or a bcrypt comparison. -/
inductive Effect where
  | storeFindByEmail (email : String)
  | storeCreate (u : User)
  | hashCompare (plaintext : String) (hashValue : String)
deriving Repr, DecidableEq

/-- How an interaction changes the stored rows: only `create` writes. -/
def Effect.applyToStore (store : List User) : Effect → List User
  | .storeCreate u => store ++ [u]
  | _ => store

/-- `LoginUseCase.execute` instrumented with the ordered list of
collaborator interactions it performs: one `findByEmail` read, then one
bcrypt comparison when a row was found. -/
def LoginUseCase.executeTrace (repo : String → Option User)
    (compare : String → String → Bool) (input : LoginInput) :
    Except AuthError LoginOutput × List Effect :=
  match repo input.email with
  | none =>
    (.error (.unauthorized "Invalid credentials"),
     [.storeFindByEmail input.email])
  | some user =>
    if compare input.password user.password then
      (.ok { user := user.withoutPassword, token := none },
       [.storeFindByEmail input.email,
        .hashCompare input.password user.password])
    else
      (.error (.unauthorized "Invalid credentials"),
       [.storeFindByEmail input.email,
        .hashCompare input.password user.password])

/-- Claim C1: whenever the email has no record, or a record exists but the
password comparison fails, `LoginUseCase.execute` fails with the identical
`UnauthorizedException("Invalid credentials")` value: same kind, same
opaque content, revealing nothing about which case occurred. -/
theorem login_invalid_credentials_uniform (repo : String → Option User)
    (compare : String → String → Bool) (input : LoginInput)
    (h : repo input.email = none ∨
      ∃ u, repo input.email = some u ∧
        compare input.password u.password = false) :
    LoginUseCase.execute repo compare input =
      .error (.unauthorized "Invalid credentials") := by
  rcases h with h | ⟨u, hu, hc⟩
  · simp [LoginUseCase.execute, h]
  · simp [LoginUseCase.execute, hu, hc]

/-- Witness for C1 at a concrete store with no matching record. -/
theorem login_invalid_credentials_uniform_witness :
    LoginUseCase.execute (fun _ => none) (fun _ _ => true)
      { email := "a@b.co", password := "pw" } =
      .error (.unauthorized "Invalid credentials") :=
  login_invalid_credentials_uniform (fun _ => none) (fun _ _ => true)
    { email := "a@b.co", password := "pw" } (Or.inl rfl)

/-- Claim C10: on an unknown email the use case fails before the password
comparison is ever invoked: the outcome is the identical
`InvalidCredentials` failure for every password and every hasher
behaviour, and the interaction trace contains no comparison. -/
theorem login_unknown_email_password_independent
    (repo : String → Option User) (email : String)
    (h : repo email = none)
    (cmp1 cmp2 : String → String → Bool) (p1 p2 : String) :
    LoginUseCase.executeTrace repo cmp1 { email := email, password := p1 } =
      (.error (.unauthorized "Invalid credentials"),
       [.storeFindByEmail email]) ∧
    LoginUseCase.executeTrace repo cmp1 { email := email, password := p1 } =
      LoginUseCase.executeTrace repo cmp2
        { email := email, password := p2 } ∧
    ∀ pt hv, Effect.hashCompare pt hv ∉
      (LoginUseCase.executeTrace repo cmp1
        { email := email, password := p1 }).2 := by
  refine ⟨?_, ?_, ?_⟩ <;> simp [LoginUseCase.executeTrace, h]

/-- Witness for C10 at a concrete empty store and two different passwords
and hashers. -/
theorem login_unknown_email_password_independent_witness :
    LoginUseCase.executeTrace (fun _ => none) (fun _ _ => true)
      { email := "x@y.co", password := "p1" } =
      (.error (.unauthorized "Invalid credentials"),
       [.storeFindByEmail "x@y.co"]) ∧
    LoginUseCase.executeTrace (fun _ => none) (fun _ _ => true)
      { email := "x@y.co", password := "p1" } =
      LoginUseCase.executeTrace (fun _ => none) (fun _ _ => false)
        { email := "x@y.co", password := "p2" } ∧
    ∀ pt hv, Effect.hashCompare pt hv ∉
      (LoginUseCase.executeTrace (fun _ => none) (fun _ _ => true)
        { email := "x@y.co", password := "p1" }).2 :=
  login_unknown_email_password_independent (fun _ => none) "x@y.co" rfl
    (fun _ _ => true) (fun _ _ => false) "p1" "p2"

/-- JavaScript `String.prototype.toLowerCase` on the ASCII range, modelled
character by character. -/
def jsToLower (s : String) : String := String.mk (s.toList.map Char.toLower)

/-- JavaScript `String.prototype.trim`: drop whitespace from both ends. -/
def jsTrim (s : String) : String :=
  String.mk
    ((s.toList.dropWhile Char.isWhitespace).reverse.dropWhile
      Char.isWhitespace).reverse

/-- The Zod transform `(val) => val.toLowerCase().trim()` from the
`email` field of `LoginSchema` in login.dto.ts. -/
def normalizeEmail (s : String) : String := jsTrim (jsToLower s)

/-- A seeded user row, as produced by the README's seed data. -/
def demoUser : User :=
  { id := "id-1", email := "user@example.com", password := "hash-1",
    name := "Test User", createdAt := "2024-01-01", updatedAt := "2024-01-01" }

/-- A store holding exactly the seeded user. -/
def demoStore : List User := [demoUser]

/-- A hasher for which exactly the seeded password verifies against the
seeded hash. -/
def demoCompare (plaintext hashValue : String) : Bool :=
  plaintext == "password123" && hashValue == "hash-1"

/-- Counterexample to claim C2: the use case does NOT normalize the email
before the lookup.  Against a store holding `user@example.com`, running
the use case directly on the raw email `USER@Example.com` fails, while
running it on the normalized email succeeds — so the use case's result is
not invariant under pre-normalization, which it would be if it normalized
internally as the claim states. -/
theorem login_use_case_does_not_normalize :
    LoginUseCase.execute (findByEmail demoStore) demoCompare
        { email := "USER@Example.com", password := "password123" } =
      .error (.unauthorized "Invalid credentials") ∧
    LoginUseCase.execute (findByEmail demoStore) demoCompare
        { email := normalizeEmail "USER@Example.com",
          password := "password123" } =
      .ok { user := demoUser.withoutPassword, token := none } := by
  exact ⟨rfl, rfl⟩

/-- Claim C2 as amended: the use case performs no normalization of its
own; its single credential-store lookup is made with the input email
exactly as received, so it relies on the validation layer's Zod transform
for normalization. -/
theorem login_use_case_looks_up_raw_email (repo : String → Option User)
    (compare : String → String → Bool) (input : LoginInput) :
    (LoginUseCase.executeTrace repo compare input).2.head? =
      some (.storeFindByEmail input.email) := by
  unfold LoginUseCase.executeTrace
  cases h : repo input.email with
  | none => simp
  | some u => by_cases hc : compare input.password u.password <;> simp [hc]

/-- The controller's HTTP response body for a successful login:
password-stripped user, optional token, status message. -/
structure AuthResponse where
  user : PublicUser
  token : Option String
  message : String
deriving Repr, DecidableEq

/-- `AuthController.login` from auth.controller.ts: invokes the use case
and rebuilds the response with the five public user fields, the (absent)
token, and the literal message "Login successful". -/
def AuthController.login (repo : String → Option User)
    (compare : String → String → Bool) (dto : LoginInput) :
    Except AuthError AuthResponse :=
  match LoginUseCase.execute repo compare dto with
  | .error e => .error e
  | .ok result =>
    .ok { user := { id := result.user.id, email := result.user.email,
                    name := result.user.name,
                    createdAt := result.user.createdAt,
                    updatedAt := result.user.updatedAt },
          token := result.token, message := "Login successful" }

/-- Every string that occurs anywhere in a controller response. -/
def AuthResponse.strings (r : AuthResponse) : List String :=
  [r.user.id, r.user.email, r.user.name, r.user.createdAt,
   r.user.updatedAt, r.message] ++
    (match r.token with
     | some t => [t]
     | none => [])

/-- Claim C3: a successful login returns exactly the stored record minus
the password hash, no token, and the message "Login successful"; and the
password hash (when it is not literally equal to one of the public
fields) occurs nowhere in the returned value. -/
theorem login_success_shape (repo : String → Option User)
    (compare : String → String → Bool) (input : LoginInput) (u : User)
    (hfind : repo input.email = some u)
    (hcmp : compare input.password u.password = true) :
    AuthController.login repo compare input =
      .ok { user := { id := u.id, email := u.email, name := u.name,
                      createdAt := u.createdAt, updatedAt := u.updatedAt },
            token := none, message := "Login successful" } ∧
    (u.password ∉ [u.id, u.email, u.name, u.createdAt, u.updatedAt] →
      ∀ r, AuthController.login repo compare input = .ok r →
        u.password ∉ r.strings ∨ u.password = "Login successful") := by
  have hmain : AuthController.login repo compare input =
      .ok { user := { id := u.id, email := u.email, name := u.name,
                      createdAt := u.createdAt, updatedAt := u.updatedAt },
            token := none, message := "Login successful" } := by
    simp [AuthController.login, LoginUseCase.execute, hfind, hcmp,
      User.withoutPassword]
  refine ⟨hmain, fun hnot r hr => ?_⟩
  rw [hmain] at hr
  cases hr
  by_cases hm : u.password = "Login successful"
  · exact Or.inr hm
  · refine Or.inl ?_
    simp only [AuthResponse.strings] at *
    simp_all [List.mem_append, List.mem_cons]

/-- Witness for C3 on the seeded store with the seeded password. -/
theorem login_success_shape_witness :
    AuthController.login (findByEmail demoStore) demoCompare
        { email := "user@example.com", password := "password123" } =
      .ok { user := { id := "id-1", email := "user@example.com",
                      name := "Test User", createdAt := "2024-01-01",
                      updatedAt := "2024-01-01" },
            token := none, message := "Login successful" } := by
  have h := login_success_shape (findByEmail demoStore) demoCompare
    { email := "user@example.com", password := "password123" } demoUser
    rfl rfl
  exact h.1

/-- A single Zod issue: the field path and the configured message. -/
structure FieldError where
  path : String
  message : String
deriving Repr, DecidableEq

/-- The raw JSON request body before validation: each field is present as
a string or absent. -/
structure RawLoginBody where
  email : Option String
  password : Option String
deriving Repr, DecidableEq

/-- Characters Zod's email pattern allows anywhere in the local part:
letters, digits, underscore, apostrophe (code 39), plus, hyphen, dot. -/
def isEmailLocalChar (c : Char) : Bool :=
  c.isAlpha || c.isDigit || c == '_' || c.toNat == 39 || c == '+' ||
    c == '-' || c == '.'

/-- Characters Zod's email pattern allows as the last character of the
local part: as above but without dot and apostrophe. -/
def isEmailLocalEndChar (c : Char) : Bool :=
  c.isAlpha || c.isDigit || c == '_' || c == '+' || c == '-'

/-- A non-final domain label: starts with a letter or digit, continues
with letters, digits or hyphens. -/
def isDomainLabelOk (label : List Char) : Bool :=
  match label with
  | [] => false
  | c :: rest =>
    (c.isAlpha || c.isDigit) &&
      rest.all (fun d => d.isAlpha || d.isDigit || d == '-')

/-- The final domain label: at least two characters, all letters. -/
def isTldOk (label : List Char) : Bool :=
  decide (2 ≤ label.length) && label.all Char.isAlpha

/-- Split a character list at every occurrence of a separator character. -/
def splitOnChar (sep : Char) : List Char → List (List Char)
  | [] => [[]]
  | x :: xs =>
    match splitOnChar sep xs with
    | [] => if x == sep then [[], []] else [[x]]
    | piece :: rest =>
      if x == sep then [] :: piece :: rest else (x :: piece) :: rest

/-- Whether two consecutive dots occur anywhere in the character list. -/
def hasDoubleDot : List Char → Bool
  | x :: y :: rest => (x == '.' && y == '.') || hasDoubleDot (y :: rest)
  | _ => false

/-- Zod's `.email()` check, modelling the library's email regular
expression: one `@`; a non-empty local part of allowed characters that
does not start with a dot, contains no `..` and ends in a restricted
character; a domain of one or more labels followed by an alphabetic
top-level label of length at least two. -/
def isValidEmail (s : String) : Bool :=
  match splitOnChar '@' s.toList with
  | [localPart, domain] =>
    (match localPart with
     | [] => false
     | c :: _ => !(c == '.')) &&
    localPart.all isEmailLocalChar &&
    (match localPart.getLast? with
     | some c => isEmailLocalEndChar c
     | none => false) &&
    !(hasDoubleDot s.toList) &&
    (let labels := splitOnChar '.' domain
     decide (2 ≤ labels.length) &&
     labels.dropLast.all isDomainLabelOk &&
     (match labels.getLast? with
      | some tld => isTldOk tld
      | none => false))
  | _ => false

/-- The `email` field of `LoginSchema`: required string, `.email(...)`,
`.min(1, ...)`, then the lowercase-and-trim transform.  Zod collects
every failing check's issue; the transform runs only when all checks
pass. -/
def validateEmailField (v : Option String) :
    List FieldError × Option String :=
  match v with
  | none => ([{ path := "email", message := "Email is required" }], none)
  | some s =>
    let issues :=
      (if isValidEmail s then []
       else [{ path := "email",
               message := "Must be a valid email address" }]) ++
      (if decide (s.length < 1) then
        [{ path := "email", message := "Email cannot be empty" }]
       else [])
    if issues.isEmpty then ([], some (normalizeEmail s)) else (issues, none)

/-- The `password` field of `LoginSchema`: required string,
`.min(6, ...)`, `.max(100, ...)`. -/
def validatePasswordField (v : Option String) :
    List FieldError × Option String :=
  match v with
  | none =>
    ([{ path := "password", message := "Password is required" }], none)
  | some s =>
    let issues :=
      (if decide (s.length < 6) then
        [{ path := "password",
           message := "Password must be at least 6 characters" }]
       else []) ++
      (if decide (100 < s.length) then
        [{ path := "password", message := "Password is too long" }]
       else [])
    if issues.isEmpty then ([], some s) else (issues, none)

/-- `LoginSchema.parse`: validate both fields, collecting all issues in
field order; succeed only when both fields pass, with the transformed
email. -/
def LoginSchema.parse (body : RawLoginBody) :
    Except (List FieldError) LoginInput :=
  let ev := validateEmailField body.email
  let pv := validatePasswordField body.password
  match ev.2, pv.2 with
  | some e, some p => .ok { email := e, password := p }
  | _, _ => .error (ev.1 ++ pv.1)

/-- The HTTP outcome of `POST /auth/login`: 400 with field errors when
validation fails, 401 on invalid credentials, 200 with the controller
response on success. -/
inductive EndpointError where
  | badRequest (errors : List FieldError)
  | unauthorized (message : String)
deriving Repr, DecidableEq

/-- The `POST /auth/login` pipeline: the nestjs-zod pipe parses the body
against `LoginSchema`; only on success is the controller (and through it
the use case) invoked. -/
def loginEndpoint (repo : String → Option User)
    (compare : String → String → Bool) (body : RawLoginBody) :
    Except EndpointError AuthResponse :=
  match LoginSchema.parse body with
  | .error es => .error (.badRequest es)
  | .ok dto =>
    match AuthController.login repo compare dto with
    | .error (.unauthorized m) => .error (.unauthorized m)
    | .ok r => .ok r

/-- The login pipeline instrumented with the collaborator interactions of
the use case; a validation failure performs none. -/
def loginEndpointTrace (repo : String → Option User)
    (compare : String → String → Bool) (body : RawLoginBody) :
    Except EndpointError AuthResponse × List Effect :=
  match LoginSchema.parse body with
  | .error es => (.error (.badRequest es), [])
  | .ok dto =>
    match LoginUseCase.executeTrace repo compare dto with
    | (.error (.unauthorized m), tr) => (.error (.unauthorized m), tr)
    | (.ok result, tr) =>
      (.ok { user := result.user, token := result.token,
             message := "Login successful" }, tr)

/-- Claim C5: a login request with email "USER@Example.com" and the
correct password, against a store whose only user has email
"user@example.com", succeeds end to end, because the validation layer
lowercases and trims the email before the store lookup runs. -/
theorem login_end_to_end_case_insensitive
    (compare : String → String → Bool) (u : User)
    (hmail : u.email = "user@example.com")
    (hcmp : compare "password123" u.password = true) :
    loginEndpoint (findByEmail [u]) compare
      { email := some "USER@Example.com", password := some "password123" } =
      .ok { user := { id := u.id, email := u.email, name := u.name,
                      createdAt := u.createdAt, updatedAt := u.updatedAt },
            token := none, message := "Login successful" } := by
  have hparse : LoginSchema.parse
      { email := some "USER@Example.com", password := some "password123" } =
      .ok { email := "user@example.com", password := "password123" } := rfl
  have hfind : findByEmail [u] "user@example.com" = some u := by
    simp [findByEmail, hmail]
  simp [loginEndpoint, hparse, AuthController.login, LoginUseCase.execute,
    hfind, hcmp, User.withoutPassword]

/-- Witness for C5 with the seeded demo user and hasher. -/
theorem login_end_to_end_case_insensitive_witness :
    loginEndpoint (findByEmail [demoUser]) demoCompare
      { email := some "USER@Example.com", password := some "password123" } =
      .ok { user := { id := "id-1", email := "user@example.com",
                      name := "Test User", createdAt := "2024-01-01",
                      updatedAt := "2024-01-01" },
            token := none, message := "Login successful" } :=
  login_end_to_end_case_insensitive demoCompare demoUser rfl rfl

/-- Claim C6: the body with email "not-an-email" and password "ab" is
rejected with exactly the two expected field errors; any password longer
than 100 characters is rejected as too long; and on every body that
fails validation the pipeline returns the 400 outcome without ever
invoking the use case (its interaction trace is empty). -/
theorem login_validation_boundary :
    LoginSchema.parse
        { email := some "not-an-email", password := some "ab" } =
      .error [{ path := "email",
                message := "Must be a valid email address" },
              { path := "password",
                message := "Password must be at least 6 characters" }] ∧
    (∀ p : String, 100 < p.length →
      validatePasswordField (some p) =
        ([{ path := "password", message := "Password is too long" }],
         none)) ∧
    (∀ repo compare body es, LoginSchema.parse body = .error es →
      loginEndpointTrace repo compare body =
        (.error (.badRequest es), [])) := by
  refine ⟨rfl, fun p hp => ?_, fun repo compare body es hes => ?_⟩
  · have h6 : ¬ p.length < 6 := by omega
    simp [validatePasswordField, h6, hp]
  · simp [loginEndpointTrace, hes]

/-- Witness for C6: a 101-character password is rejected as too long, and
the failing demo body produces the 400 outcome with no interaction, for
a concrete store and hasher. -/
theorem login_validation_boundary_witness :
    validatePasswordField (some (String.mk (List.replicate 101 'a'))) =
      ([{ path := "password", message := "Password is too long" }],
       none) ∧
    loginEndpointTrace (findByEmail demoStore) demoCompare
        { email := some "not-an-email", password := some "ab" } =
      (.error (.badRequest
        [{ path := "email", message := "Must be a valid email address" },
         { path := "password",
           message := "Password must be at least 6 characters" }]), []) :=
  ⟨login_validation_boundary.2.1 (String.mk (List.replicate 101 'a'))
      (by decide),
   login_validation_boundary.2.2 (findByEmail demoStore) demoCompare
      { email := some "not-an-email", password := some "ab" } _ rfl⟩

/-- A JavaScript runtime value as seen by the response interceptor. -/
inductive JSValue where
  | null
  | undefined
  | bool (b : Bool)
  | num (n : Int)
  | str (s : String)
  | obj (fields : List (String × JSValue))

/-- JavaScript truthiness, as used by the `data &&` guard. -/
def JSValue.truthy : JSValue → Bool
  | .null => false
  | .undefined => false
  | .bool b => b
  | .num n => !(n == 0)
  | .str s => !(s == "")
  | .obj _ => true

/-- The `typeof data === 'object'` test; in JavaScript `typeof null` is
also `'object'`. -/
def JSValue.isObjectType : JSValue → Bool
  | .null => true
  | .obj _ => true
  | _ => false

/-- The JavaScript `'k' in data` test on an object value. -/
def JSValue.hasKey (k : String) : JSValue → Bool
  | .obj fields => fields.any (fun f => f.1 == k)
  | _ => false

/-- Whether the value is `null` or `undefined`, as tested by
`data === null || data === undefined`. -/
def JSValue.isNullish : JSValue → Bool
  | .null => true
  | .undefined => true
  | _ => false

/-- `ResponseInterceptor.isStandardFormat`: truthy, of object type, and
carrying both a `success` and a `timestamp` key. -/
def isStandardFormat (data : JSValue) : Bool :=
  data.truthy && data.isObjectType && data.hasKey "success" &&
    data.hasKey "timestamp"

/-- The map step of `ResponseInterceptor.intercept`: pass through a
payload already in standard format; otherwise coerce `null`/`undefined`
to `null` and wrap in the success envelope stamped with the current
time. -/
def ResponseInterceptor.normalize (timestamp : String) (data : JSValue) :
    JSValue :=
  if isStandardFormat data then data
  else
    let payload := if data.isNullish then JSValue.null else data
    JSValue.obj [("success", JSValue.bool true), ("data", payload),
                 ("timestamp", JSValue.str timestamp)]

/-- Claim C4: an object payload already carrying both a `success` and a
`timestamp` field passes through the interceptor unmodified; the
transformation is idempotent for every payload and every pair of clock
readings; and every other (non-nullish) payload is wrapped exactly once
into the success envelope with the payload as its `data` field. -/
theorem interceptor_envelope_idempotent :
    (∀ ts fields, (JSValue.obj fields).hasKey "success" = true →
      (JSValue.obj fields).hasKey "timestamp" = true →
      ResponseInterceptor.normalize ts (JSValue.obj fields) =
        JSValue.obj fields) ∧
    (∀ ts ts2 d,
      ResponseInterceptor.normalize ts2 (ResponseInterceptor.normalize ts d) =
        ResponseInterceptor.normalize ts d) ∧
    (∀ ts d, isStandardFormat d = false → d.isNullish = false →
      ResponseInterceptor.normalize ts d =
        JSValue.obj [("success", JSValue.bool true), ("data", d),
                     ("timestamp", JSValue.str ts)]) := by
  refine ⟨fun ts fields h1 h2 => ?_, fun ts ts2 d => ?_,
    fun ts d hs hn => ?_⟩
  · simp [ResponseInterceptor.normalize, isStandardFormat, JSValue.truthy,
      JSValue.isObjectType, h1, h2]
  · by_cases hs : isStandardFormat d
    · simp [ResponseInterceptor.normalize, hs]
    · simp only [ResponseInterceptor.normalize, hs, if_false, if_neg,
        Bool.not_eq_true]
      simp [isStandardFormat, JSValue.truthy, JSValue.isObjectType,
        JSValue.hasKey, hs]
  · simp [ResponseInterceptor.normalize, hs, hn]

/-- Witness for C4: a concrete already-enveloped object passes through
unchanged, and a concrete string payload is wrapped exactly once. -/
theorem interceptor_envelope_idempotent_witness :
    ResponseInterceptor.normalize "t2"
      (JSValue.obj [("success", JSValue.bool true),
                    ("timestamp", JSValue.str "t1")]) =
      JSValue.obj [("success", JSValue.bool true),
                   ("timestamp", JSValue.str "t1")] ∧
    ResponseInterceptor.normalize "t2" (JSValue.str "hello") =
      JSValue.obj [("success", JSValue.bool true),
                   ("data", JSValue.str "hello"),
                   ("timestamp", JSValue.str "t2")] :=
  ⟨interceptor_envelope_idempotent.1 "t2"
      [("success", JSValue.bool true), ("timestamp", JSValue.str "t1")]
      rfl rfl,
   interceptor_envelope_idempotent.2.2 "t2" (JSValue.str "hello") rfl rfl⟩

/-- Claim C8: a `null` or `undefined` handler payload is normalized to an
envelope whose `data` field is present and equal to `null`, never an
envelope with the `data` field omitted. -/
theorem interceptor_null_payload (ts : String) :
    ResponseInterceptor.normalize ts JSValue.null =
      JSValue.obj [("success", JSValue.bool true), ("data", JSValue.null),
                   ("timestamp", JSValue.str ts)] ∧
    ResponseInterceptor.normalize ts JSValue.undefined =
      JSValue.obj [("success", JSValue.bool true), ("data", JSValue.null),
                   ("timestamp", JSValue.str ts)] ∧
    (ResponseInterceptor.normalize ts JSValue.null).hasKey "data" = true ∧
    (ResponseInterceptor.normalize ts JSValue.undefined).hasKey "data" =
      true := by
  refine ⟨rfl, rfl, ?_, ?_⟩ <;>
    simp [ResponseInterceptor.normalize, isStandardFormat, JSValue.truthy,
      JSValue.isNullish, JSValue.hasKey]

/-- Claim C7: the use case performs no write: its interaction trace is a
single `findByEmail` read, followed by a single bcrypt comparison when a
row was found; replaying the trace against the store leaves the store
unchanged; a second identical call against the post-trace store returns
the identical outcome; and with valid credentials that outcome is a
success carrying the password-stripped record. -/
theorem login_no_writes_idempotent (store : List User)
    (compare : String → String → Bool) (input : LoginInput) :
    ((LoginUseCase.executeTrace (findByEmail store) compare input).2.foldl
        Effect.applyToStore store = store) ∧
    ((LoginUseCase.executeTrace (findByEmail store) compare input).2 =
        [.storeFindByEmail input.email] ∨
      ∃ u, findByEmail store input.email = some u ∧
        (LoginUseCase.executeTrace (findByEmail store) compare input).2 =
          [.storeFindByEmail input.email,
           .hashCompare input.password u.password]) ∧
    (LoginUseCase.executeTrace
        (findByEmail
          ((LoginUseCase.executeTrace (findByEmail store) compare
              input).2.foldl Effect.applyToStore store))
        compare input =
      LoginUseCase.executeTrace (findByEmail store) compare input) ∧
    (∀ u, findByEmail store input.email = some u →
      compare input.password u.password = true →
      (LoginUseCase.executeTrace (findByEmail store) compare input).1 =
        .ok { user := u.withoutPassword, token := none }) := by
  have hfold : (LoginUseCase.executeTrace (findByEmail store) compare
      input).2.foldl Effect.applyToStore store = store := by
    cases h : findByEmail store input.email with
    | none => simp [LoginUseCase.executeTrace, h, Effect.applyToStore]
    | some u =>
      by_cases hc : compare input.password u.password <;>
        simp [LoginUseCase.executeTrace, h, hc, Effect.applyToStore]
  refine ⟨hfold, ?_, by rw [hfold], fun u hu hc => ?_⟩
  · cases h : findByEmail store input.email with
    | none => exact Or.inl (by simp [LoginUseCase.executeTrace, h])
    | some u =>
      refine Or.inr ⟨u, rfl, ?_⟩
      by_cases hc : compare input.password u.password <;>
        simp [LoginUseCase.executeTrace, h, hc]
  · simp [LoginUseCase.executeTrace, hu, hc]

/-- Witness for C7: the seeded store and valid credentials produce the
success outcome through the trace semantics. -/
theorem login_no_writes_idempotent_witness :
    (LoginUseCase.executeTrace (findByEmail demoStore) demoCompare
      { email := "user@example.com", password := "password123" }).1 =
      .ok { user := demoUser.withoutPassword, token := none } :=
  (login_no_writes_idempotent demoStore demoCompare
    { email := "user@example.com", password := "password123" }).2.2.2
    demoUser rfl rfl
